import Mathlib

/-!
Verification of the ESP32 local sensor API (two Flask variants:
`SCD4X/scd41-co2-monitor-local/local-sensor-api/sensor_api.py`, embedded in
namespace `SensorApi`, and `local-sensor-api/sensor_api.py`, embedded in
namespace `SensorApiB`).  Handlers are embedded as pure functions over an
explicit database state; the external collaborators (current clock,
`datetime.fromisoformat`, `isoformat`, and storage-connection failure) are
injected through a context record.
-/

/-- JSON values, as produced by `request.get_json()` and consumed by
`jsonify`.  Python `None` is `null`; Python distinguishes `int` from `float`
and `json.dumps` renders them differently, so the model keeps them apart
(floats are modelled as rationals; no claim depends on rounding). -/
inductive Json where
  | null : Json
  | bool : Bool → Json
  | int : Int → Json
  | float : Rat → Json
  | str : String → Json
  | arr : List Json → Json
  | obj : List (String × Json) → Json

/-- Python truthiness (`if x:`) on JSON-shaped values: `None`, `False`, `0`,
`0.0`, `""`, `[]`, `{}` are falsy, everything else truthy. -/
def pyFalsy : Json → Bool
  | Json.null => true
  | Json.bool b => !b
  | Json.int n => n == 0
  | Json.float q => q == 0
  | Json.str s => s == ""
  | Json.arr xs => xs.isEmpty
  | Json.obj kvs => kvs.isEmpty

/-- Timestamps (`datetime` values), abstracted to integers (seconds);
only ordering and arithmetic on whole hours matter to the service. -/
abbrev DateTime := Int

/-- A persisted row of the `readings` table: `device` text, `co2` integer
(nullable), `temp` and `humidity` double precision (nullable), `created_at`
timestamp. -/
structure Reading where
  device : String
  co2 : Option Int
  temp : Option Rat
  humidity : Option Rat
  created_at : DateTime
deriving DecidableEq

/-- A persisted row of the `sensor_events` table. -/
structure SensorEvent where
  device : String
  event_type : String
  message : String
  uptime_seconds : Option Int
  created_at : DateTime
deriving DecidableEq

/-- The storage state: contents of the two tables. -/
structure DB where
  readings : List Reading
  events : List SensorEvent
deriving DecidableEq

/-- Request-independent environment: the current UTC clock
(`datetime.now(timezone.utc)`), the external ISO-8601 parser
(`datetime.fromisoformat`, `none` = raises `ValueError`), the ISO renderer
(`datetime.isoformat`), and an injected storage failure (`some msg` means
`psycopg.connect`/the statement raises with text `msg`). -/
structure Ctx where
  now : DateTime
  parseIso : String → Option DateTime
  iso : DateTime → String
  dbFail : Option String

/-- Opening the connection inside the `try` block: fails iff a storage
failure is injected. -/
def dbConnect (ctx : Ctx) : Except String Unit :=
  match ctx.dbFail with
  | some msg => Except.error msg
  | none => Except.ok ()

/-- An HTTP response: status code and JSON body. -/
abbrev Resp := Nat × Json

/-- The error body `{"error": msg}` used by every failure path. -/
def errObj (msg : String) : Json :=
  Json.obj [("error", Json.str msg)]

/-- Adaptation of a Python value into the integer column `co2` /
`uptime_seconds` (psycopg + PostgreSQL): `None` and ints are accepted,
anything else makes the statement raise. -/
def asIntCol : Json → Except String (Option Int)
  | Json.null => Except.ok none
  | Json.int n => Except.ok (some n)
  | _ => Except.error "invalid input for integer column"

/-- Adaptation into a double-precision column (`temp`, `humidity`):
`None`, ints (widened) and floats are accepted. -/
def asFloatCol : Json → Except String (Option Rat)
  | Json.null => Except.ok none
  | Json.int n => Except.ok (some (n : Rat))
  | Json.float q => Except.ok (some q)
  | _ => Except.error "invalid input for float column"

/-- Adaptation into a non-null text column (`device`, `event_type`,
`message`): only strings are accepted. -/
def asTextCol : Json → Except String String
  | Json.str s => Except.ok s
  | _ => Except.error "invalid input for text column"

/-- Characters stripped by Python `int()` before parsing. -/
def isSpaceChar (c : Char) : Bool :=
  c == ' ' || c == '\t' || c == '\n' || c == '\r'

/-- Strip leading and trailing whitespace from a character list. -/
def trimChars (cs : List Char) : List Char :=
  ((cs.dropWhile isSpaceChar).reverse.dropWhile isSpaceChar).reverse

/-- Decimal value of a digit list. -/
def digitsVal (cs : List Char) : Nat :=
  cs.foldl (fun acc c => acc * 10 + (c.toNat - 48)) 0

/-- Model of the Python builtin `int(s)` on strings: optional surrounding
whitespace, optional sign, then a non-empty run of decimal digits; `none`
models the raised `ValueError`.  (Digit-group underscores are not modelled;
no claim exercises them.) -/
def pyParseInt (s : String) : Option Int :=
  match trimChars s.data with
  | [] => none
  | c :: rest =>
    if c == '-' then
      (if !rest.isEmpty && rest.all Char.isDigit then some (-(digitsVal rest : Int)) else none)
    else if c == '+' then
      (if !rest.isEmpty && rest.all Char.isDigit then some ((digitsVal rest : Int)) else none)
    else
      (if (c :: rest).all Char.isDigit then some ((digitsVal (c :: rest) : Int)) else none)

/-- Model of `int(request.args.get(name, dflt))`: the default is used when
the argument is absent, otherwise the string is parsed; a parse failure is
an exception raised outside any `try` block. -/
def getIntArg (arg : Option String) (dflt : Int) : Except String Int :=
  match arg with
  | none => Except.ok dflt
  | some s =>
    match pyParseInt s with
    | some n => Except.ok n
    | none => Except.error ("invalid literal for int with base 10: " ++ s)

/-- The lookback cutoff `datetime.now(timezone.utc) - timedelta(hours=h)`. -/
def cutoffAt (ctx : Ctx) (hours : Int) : DateTime :=
  ctx.now - hours * 3600

/-- Truthiness of an optional query-string value (`if not device:` on
`request.args.get(...)`): falsy iff absent or the empty string. -/
def argFalsy : Option String → Bool
  | none => true
  | some s => s == ""

/-- Character-level model of Python `ts.replace` sending `Z` to `+00:00`: every
occurrence of the single character `Z` becomes `+00:00`.  (Spelled out on
the character list because the pattern is a single character and this keeps
the function kernel-computable.) -/
def replaceZChars : List Char → List Char
  | [] => []
  | c :: rest =>
    if c == 'Z' then '+' :: '0' :: '0' :: ':' :: '0' :: '0' :: replaceZChars rest
    else c :: replaceZChars rest

/-- String version of `replaceZChars`. -/
def replaceZ (s : String) : String := String.mk (replaceZChars s.data)

/-- Relation of `ORDER BY created_at ASC` on `readings` rows. -/
def rdAsc (a b : Reading) : Prop := a.created_at ≤ b.created_at

instance : DecidableRel rdAsc := fun a b => Int.decLe a.created_at b.created_at

instance : IsTotal Reading rdAsc := ⟨fun a b => Int.le_total a.created_at b.created_at⟩

instance : IsTrans Reading rdAsc := ⟨fun _ _ _ h1 h2 => Int.le_trans h1 h2⟩

/-- Relation of `ORDER BY created_at DESC` on `sensor_events` rows. -/
def evDesc (a b : SensorEvent) : Prop := b.created_at ≤ a.created_at

instance : DecidableRel evDesc := fun a b => Int.decLe b.created_at a.created_at

instance : IsTotal SensorEvent evDesc := ⟨fun a b => Int.le_total b.created_at a.created_at⟩

instance : IsTrans SensorEvent evDesc := ⟨fun _ _ _ h1 h2 => Int.le_trans h2 h1⟩

/-- Body of `/api/sensor` POST: `device` plus the three `data.get(...)`
values (absent keys read back as `None`, i.e. `Json.null`). -/
structure SingleReq where
  device : Json
  co2 : Json
  temp : Json
  humidity : Json

/-- One entry of the `readings` array of a batch POST; `r.get(...)` on an
absent key yields `None`, i.e. `Json.null`. -/
structure RawReading where
  co2 : Json
  temp : Json
  humidity : Json
  ts : Json

/-- Body of `/api/sensor/batch` POST.  `data.get("readings", [])` defaults
to the empty list, so an absent or `null` array is the empty list here. -/
structure BatchReq where
  device : Json
  readings : List RawReading

/-- Body of `/api/sensor/log` POST.  `event_type` and `message` are read
with `data.get(key, default)`: the default applies only when the key is
absent (`none`), not when it is present with value `null`. -/
structure EventReq where
  device : Json
  event_type : Option Json
  message : Option Json
  uptime : Json

namespace SensorApi

/-- Handler of `GET /health` in `sensor_api.py` (read variant): probe the connection,
report `{"status":"ok","database":"connected"}` or a 500 with the error. -/
def health (ctx : Ctx) : Resp :=
  match ctx.dbFail with
  | some e => (500, Json.obj [("status", Json.str "error"), ("database", Json.str e)])
  | none => (200, Json.obj [("status", Json.str "ok"), ("database", Json.str "connected")])

/-- Handler of `POST /api/sensor` (`receive_single`): validate JSON body and `device`,
then insert one `readings` row; `created_at` takes the insertion-time
default. -/
def receive_single (ctx : Ctx) (db : DB) (data : Option SingleReq) : Resp × DB :=
  match data with
  | none => ((400, errObj "No JSON data"), db)
  | some d =>
    if pyFalsy d.device then ((400, errObj "Missing device name"), db)
    else
      let attempt : Except String Reading := do
        _ ← dbConnect ctx
        let dev ← asTextCol d.device
        let c ← asIntCol d.co2
        let tp ← asFloatCol d.temp
        let h ← asFloatCol d.humidity
        pure (Reading.mk dev c tp h ctx.now)
      match attempt with
      | Except.error e => ((500, errObj e), db)
      | Except.ok row =>
        ((200, Json.obj [("status", Json.str "ok")]), DB.mk (db.readings ++ [row]) db.events)

/-- Per-entry timestamp handling of `receive_batch` (lines 110-118):
`ts = r.get("ts"); if ts:` then `ts.replace` with `Z` to `+00:00` (an
`AttributeError` on a truthy non-string, uncaught by `except ValueError`),
then `datetime.fromisoformat` with fallback to now on `ValueError`; a falsy
`ts` goes straight to now. -/
def batchTimestamp (ctx : Ctx) (tsv : Json) : Except String DateTime :=
  if pyFalsy tsv then Except.ok ctx.now
  else
    match tsv with
    | Json.str s =>
      (match ctx.parseIso (replaceZ s) with
       | some t => Except.ok t
       | none => Except.ok ctx.now)
    | _ => Except.error "AttributeError: object has no attribute replace"

/-- The `for r in readings:` loop of `receive_batch`, producing the
`created_at` of each entry in order (the first raised `AttributeError`
aborts the loop). -/
def tsList (ctx : Ctx) : List RawReading → Except String (List DateTime)
  | [] => Except.ok []
  | r :: rs =>
    match batchTimestamp ctx r.ts with
    | Except.error e => Except.error e
    | Except.ok t =>
      match tsList ctx rs with
      | Except.error e => Except.error e
      | Except.ok ts => Except.ok (t :: ts)

/-- The `executemany` insert of `receive_batch`: adapt each prepared tuple
into the `readings` columns; any adaptation failure raises, and the
transaction (the `with conn` block) then commits nothing. -/
def adaptRows (dev : String) : List (RawReading × DateTime) → Except String (List Reading)
  | [] => Except.ok []
  | (r, t) :: rest =>
    match asIntCol r.co2, asFloatCol r.temp, asFloatCol r.humidity with
    | Except.ok c, Except.ok tp, Except.ok h =>
      (match adaptRows dev rest with
       | Except.ok rows => Except.ok (Reading.mk dev c tp h t :: rows)
       | Except.error e => Except.error e)
    | Except.error e, _, _ => Except.error e
    | _, Except.error e, _ => Except.error e
    | _, _, Except.error e => Except.error e

/-- The whole `try` block of `receive_batch`: connect, run the timestamp
loop, then the batch insert; `Except.error` is the caught exception whose
text lands in the 500 body. -/
def batchAttempt (ctx : Ctx) (d : BatchReq) : Except String (List Reading) :=
  match dbConnect ctx with
  | Except.error e => Except.error e
  | Except.ok _ =>
    match tsList ctx d.readings with
    | Except.error e => Except.error e
    | Except.ok stamps =>
      match asTextCol d.device with
      | Except.error e => Except.error e
      | Except.ok dev => adaptRows dev (d.readings.zip stamps)

/-- Handler of `POST /api/sensor/batch` (`receive_batch`): validate body, `device` and
non-emptiness of `readings`, then insert the whole batch in one
transaction; success answers `{"status":"ok","stored": len(readings)}`. -/
def receive_batch (ctx : Ctx) (db : DB) (data : Option BatchReq) : Resp × DB :=
  match data with
  | none => ((400, errObj "No JSON data"), db)
  | some d =>
    if pyFalsy d.device then ((400, errObj "Missing device name"), db)
    else if d.readings.isEmpty then ((400, errObj "No readings provided"), db)
    else
      match batchAttempt ctx d with
      | Except.error e => ((500, errObj e), db)
      | Except.ok rows =>
        ((200, Json.obj [("status", Json.str "ok"), ("stored", Json.int (d.readings.length : Int))]),
         DB.mk (db.readings ++ rows) db.events)

/-- Handler of `POST /api/sensor/log` (`receive_event`): validate body and `device`,
default `event_type` to `"info"` and `message` to the empty string, insert one
`sensor_events` row. -/
def receive_event (ctx : Ctx) (db : DB) (data : Option EventReq) : Resp × DB :=
  match data with
  | none => ((400, errObj "No JSON data"), db)
  | some d =>
    if pyFalsy d.device then ((400, errObj "Missing device name"), db)
    else
      let etype := d.event_type.getD (Json.str "info")
      let msg := d.message.getD (Json.str "")
      let attempt : Except String SensorEvent := do
        _ ← dbConnect ctx
        let dev ← asTextCol d.device
        let et ← asTextCol etype
        let m ← asTextCol msg
        let up ← asIntCol d.uptime
        pure (SensorEvent.mk dev et m up ctx.now)
      match attempt with
      | Except.error e => ((500, errObj e), db)
      | Except.ok ev =>
        ((200, Json.obj [("status", Json.str "ok")]), DB.mk db.readings (db.events ++ [ev]))

end SensorApi

/-- Query parameters of `GET /api/sensor` and `GET /api/sensor/stats`. -/
structure ReadingsParams where
  device : Option String
  hours : Option String

/-- Query parameters of `GET /api/sensor/log`. -/
structure EventsParams where
  device : Option String
  hours : Option String
  limit : Option String
  type : Option String

/-- Rendering of a nullable integer column as `None` or int (`row[0]` passed through
to `jsonify` unchanged). -/
def optIntJson : Option Int → Json
  | none => Json.null
  | some n => Json.int n

/-- Python `float(x) if x is not None else None`. -/
def floatOrNull : Option Rat → Json
  | none => Json.null
  | some q => Json.float q

/-- Python `float(x) if x else None`: the truthiness test also sends the value
`0` to `None`. -/
def floatIfTruthy : Option Rat → Json
  | none => Json.null
  | some q => if q == 0 then Json.null else Json.float q

/-- SQL `MIN` over the non-NULL values of a column (`none` when the column
is empty, i.e. SQL NULL). -/
def colMin {α : Type} [LinearOrder α] : List α → Option α
  | [] => none
  | x :: xs =>
    match colMin xs with
    | none => some x
    | some m => some (min x m)

/-- SQL `MAX` over the non-NULL values of a column. -/
def colMax {α : Type} [LinearOrder α] : List α → Option α
  | [] => none
  | x :: xs =>
    match colMax xs with
    | none => some x
    | some m => some (max x m)

/-- SQL `AVG` over an integer column: NULL when no values, otherwise the
exact rational mean. -/
def avgInt (xs : List Int) : Option Rat :=
  if xs.isEmpty then none else some ((xs.sum : Rat) / (xs.length : Rat))

/-- SQL `AVG` over a double-precision column. -/
def avgRat (xs : List Rat) : Option Rat :=
  if xs.isEmpty then none else some (xs.sum / (xs.length : Rat))

/-- ASCII lowercasing of one character, the behaviour of SQL `LOWER` on the
ASCII range (the only range the `%calibrat%` pattern can match). -/
def lowerChar (c : Char) : Char :=
  if 65 ≤ c.toNat && c.toNat ≤ 90 then Char.ofNat (c.toNat + 32) else c

/-- Lowercased character list of a string. -/
def lowerStrChars (s : String) : List Char := s.data.map lowerChar

/-- Substring occurrence test, the meaning of SQL `LIKE` with a `%pat%` pattern for a
pattern without wildcards. -/
def hasSub (pat : List Char) : List Char → Bool
  | [] => pat.isEmpty
  | c :: cs => List.isPrefixOf pat (c :: cs) || hasSub pat cs

/-- The pattern of the calibration lookup. -/
def calibPat : List Char := "calibrat".data

/-- The condition `LOWER(message) LIKE` with pattern `%calibrat%`. -/
def calibMatches (e : SensorEvent) : Bool :=
  hasSub calibPat (lowerStrChars e.message)

namespace SensorApi

/-- Rendering of one `readings` row by `get_readings`: `co2` passed through
unchanged, `temp` and `humidity` through `float(...) if ... is not None`,
`created_at` through `isoformat`. -/
def readingJson (ctx : Ctx) (r : Reading) : Json :=
  Json.obj [
    ("co2", optIntJson r.co2),
    ("temp", floatOrNull r.temp),
    ("humidity", floatOrNull r.humidity),
    ("ts", Json.str (ctx.iso r.created_at))]

/-- The SELECT of `get_readings`: rows of the device inside the lookback
window, ordered by `created_at ASC`. -/
def selectReadings (db : DB) (dev : String) (cut : DateTime) : List Reading :=
  List.insertionSort rdAsc
    (db.readings.filter (fun r => r.device == dev && decide (cut ≤ r.created_at)))

/-- Handler of `GET /api/sensor` (`get_readings`).  `Except.error` is an exception
raised outside the `try` block (the `int(...)` conversion), which never
reaches the JSON error contract. -/
def get_readings (ctx : Ctx) (db : DB) (p : ReadingsParams) : Except String Resp :=
  if argFalsy p.device then Except.ok (400, errObj "Missing device parameter")
  else
    match getIntArg p.hours 24 with
    | Except.error e => Except.error e
    | Except.ok hours =>
      let cut := cutoffAt ctx hours
      match dbConnect ctx with
      | Except.error e => Except.ok (500, errObj e)
      | Except.ok _ =>
        Except.ok (200, Json.arr ((selectReadings db (p.device.getD "") cut).map (readingJson ctx)))

/-- The `if event_type:` dispatch of `get_events`: an absent or empty
`type` argument selects the unfiltered query. -/
def truthyArg : Option String → Option String
  | none => none
  | some t => if t == "" then none else some t

/-- The SELECT of `get_events`: device and window filter, optional exact
`event_type` match, `ORDER BY created_at DESC LIMIT lim` (PostgreSQL
rejects a negative LIMIT). -/
def selectEvents (db : DB) (dev : String) (cut : DateTime) (tfilter : Option String)
    (lim : Int) : Except String (List SensorEvent) :=
  if lim < 0 then Except.error "LIMIT must not be negative"
  else
    let windowed := db.events.filter (fun e => e.device == dev && decide (cut ≤ e.created_at))
    let chosen :=
      match tfilter with
      | some t => windowed.filter (fun e => e.event_type == t)
      | none => windowed
    Except.ok ((List.insertionSort evDesc chosen).take lim.toNat)

/-- Rendering of one `sensor_events` row by `get_events`; `heap` and
`total_measurements` are hard-coded `None`. -/
def eventJson (ctx : Ctx) (e : SensorEvent) : Json :=
  Json.obj [
    ("event_type", Json.str e.event_type),
    ("message", Json.str e.message),
    ("uptime", optIntJson e.uptime_seconds),
    ("heap", Json.null),
    ("total_measurements", Json.null),
    ("ts", Json.str (ctx.iso e.created_at))]

/-- Handler of `GET /api/sensor/log` (`get_events`). -/
def get_events (ctx : Ctx) (db : DB) (p : EventsParams) : Except String Resp :=
  if argFalsy p.device then Except.ok (400, errObj "Missing device parameter")
  else
    match getIntArg p.hours 24 with
    | Except.error e => Except.error e
    | Except.ok hours =>
      match getIntArg p.limit 50 with
      | Except.error e => Except.error e
      | Except.ok lim =>
        let cut := cutoffAt ctx hours
        match dbConnect ctx with
        | Except.error e => Except.ok (500, errObj e)
        | Except.ok _ =>
          match selectEvents db (p.device.getD "") cut (truthyArg p.type) lim with
          | Except.error e => Except.ok (500, errObj e)
          | Except.ok evs => Except.ok (200, Json.arr (evs.map (eventJson ctx)))

/-- Handler of `GET /api/sensor/calibration` (`get_last_calibration`): newest event of
the device whose lowercased message contains `calibrat`. -/
def get_last_calibration (ctx : Ctx) (db : DB) (device : Option String) : Except String Resp :=
  if argFalsy device then Except.ok (400, errObj "Missing device parameter")
  else
    match dbConnect ctx with
    | Except.error e => Except.ok (500, errObj e)
    | Except.ok _ =>
      let matched := db.events.filter (fun e => e.device == device.getD "" && calibMatches e)
      match List.insertionSort evDesc matched with
      | [] => Except.ok (200, Json.obj [("date", Json.null)])
      | e :: _ => Except.ok (200, Json.obj [("date", Json.str (ctx.iso e.created_at))])

/-- The aggregate row fetched by `get_stats`: COUNT(*) plus AVG/MIN/MAX per
metric column (aggregates ignore NULL values and are NULL on an empty
column). -/
structure StatsRow where
  count : Nat
  avg_co2 : Option Rat
  min_co2 : Option Int
  max_co2 : Option Int
  avg_temp : Option Rat
  min_temp : Option Rat
  max_temp : Option Rat
  avg_hum : Option Rat
  min_hum : Option Rat
  max_hum : Option Rat

/-- The SELECT of `get_stats` over the device rows in the window. -/
def statsQuery (db : DB) (dev : String) (cut : DateTime) : StatsRow :=
  let rows := db.readings.filter (fun r => r.device == dev && decide (cut ≤ r.created_at))
  let co2s := rows.filterMap (fun r => r.co2)
  let temps := rows.filterMap (fun r => r.temp)
  let hums := rows.filterMap (fun r => r.humidity)
  StatsRow.mk rows.length (avgInt co2s) (colMin co2s) (colMax co2s)
    (avgRat temps) (colMin temps) (colMax temps)
    (avgRat hums) (colMin hums) (colMax hums)

/-- Handler of `GET /api/sensor/stats` (`get_stats`): `count = 0` answers all-null
groups; otherwise averages and temp/humidity min/max go through
`float(x) if x else None` (truthiness), co2 min/max are passed through. -/
def get_stats (ctx : Ctx) (db : DB) (p : ReadingsParams) : Except String Resp :=
  if argFalsy p.device then Except.ok (400, errObj "Missing device parameter")
  else
    match getIntArg p.hours 24 with
    | Except.error e => Except.error e
    | Except.ok hours =>
      let cut := cutoffAt ctx hours
      match dbConnect ctx with
      | Except.error e => Except.ok (500, errObj e)
      | Except.ok _ =>
        let row := statsQuery db (p.device.getD "") cut
        if row.count > 0 then
          Except.ok (200, Json.obj [
            ("count", Json.int (row.count : Int)),
            ("co2", Json.obj [("avg", floatIfTruthy row.avg_co2),
                              ("min", optIntJson row.min_co2),
                              ("max", optIntJson row.max_co2)]),
            ("temp", Json.obj [("avg", floatIfTruthy row.avg_temp),
                               ("min", floatIfTruthy row.min_temp),
                               ("max", floatIfTruthy row.max_temp)]),
            ("humidity", Json.obj [("avg", floatIfTruthy row.avg_hum),
                                   ("min", floatIfTruthy row.min_hum),
                                   ("max", floatIfTruthy row.max_hum)])])
        else
          Except.ok (200, Json.obj [("count", Json.int 0), ("co2", Json.null),
                                    ("temp", Json.null), ("humidity", Json.null)])

end SensorApi

namespace SensorApiB

/-- Handler of `GET /health` in `local-sensor-api/sensor_api.py` (write-only
variant). -/
def health (ctx : Ctx) : Resp :=
  match ctx.dbFail with
  | some e => (500, Json.obj [("status", Json.str "error"), ("database", Json.str e)])
  | none => (200, Json.obj [("status", Json.str "ok"), ("database", Json.str "connected")])

/-- Handler of `POST /api/sensor` in the write-only variant. -/
def receive_single (ctx : Ctx) (db : DB) (data : Option SingleReq) : Resp × DB :=
  match data with
  | none => ((400, errObj "No JSON data"), db)
  | some d =>
    if pyFalsy d.device then ((400, errObj "Missing device name"), db)
    else
      let attempt : Except String Reading := do
        _ ← dbConnect ctx
        let dev ← asTextCol d.device
        let c ← asIntCol d.co2
        let tp ← asFloatCol d.temp
        let h ← asFloatCol d.humidity
        pure (Reading.mk dev c tp h ctx.now)
      match attempt with
      | Except.error e => ((500, errObj e), db)
      | Except.ok row =>
        ((200, Json.obj [("status", Json.str "ok")]), DB.mk (db.readings ++ [row]) db.events)

/-- Per-entry timestamp handling of `receive_batch` in the write-only
variant (lines 108-116 of that file, same text as the read variant). -/
def batchTimestamp (ctx : Ctx) (tsv : Json) : Except String DateTime :=
  if pyFalsy tsv then Except.ok ctx.now
  else
    match tsv with
    | Json.str s =>
      (match ctx.parseIso (replaceZ s) with
       | some t => Except.ok t
       | none => Except.ok ctx.now)
    | _ => Except.error "AttributeError: object has no attribute replace"

/-- The `for r in readings:` loop of the write-only variant. -/
def tsList (ctx : Ctx) : List RawReading → Except String (List DateTime)
  | [] => Except.ok []
  | r :: rs =>
    match batchTimestamp ctx r.ts with
    | Except.error e => Except.error e
    | Except.ok t =>
      match tsList ctx rs with
      | Except.error e => Except.error e
      | Except.ok ts => Except.ok (t :: ts)

/-- The `executemany` insert of the write-only variant. -/
def adaptRows (dev : String) : List (RawReading × DateTime) → Except String (List Reading)
  | [] => Except.ok []
  | (r, t) :: rest =>
    match asIntCol r.co2, asFloatCol r.temp, asFloatCol r.humidity with
    | Except.ok c, Except.ok tp, Except.ok h =>
      (match adaptRows dev rest with
       | Except.ok rows => Except.ok (Reading.mk dev c tp h t :: rows)
       | Except.error e => Except.error e)
    | Except.error e, _, _ => Except.error e
    | _, Except.error e, _ => Except.error e
    | _, _, Except.error e => Except.error e

/-- The `try` block of `receive_batch` in the write-only variant. -/
def batchAttempt (ctx : Ctx) (d : BatchReq) : Except String (List Reading) :=
  match dbConnect ctx with
  | Except.error e => Except.error e
  | Except.ok _ =>
    match tsList ctx d.readings with
    | Except.error e => Except.error e
    | Except.ok stamps =>
      match asTextCol d.device with
      | Except.error e => Except.error e
      | Except.ok dev => adaptRows dev (d.readings.zip stamps)

/-- Handler of `POST /api/sensor/batch` in the write-only variant. -/
def receive_batch (ctx : Ctx) (db : DB) (data : Option BatchReq) : Resp × DB :=
  match data with
  | none => ((400, errObj "No JSON data"), db)
  | some d =>
    if pyFalsy d.device then ((400, errObj "Missing device name"), db)
    else if d.readings.isEmpty then ((400, errObj "No readings provided"), db)
    else
      match batchAttempt ctx d with
      | Except.error e => ((500, errObj e), db)
      | Except.ok rows =>
        ((200, Json.obj [("status", Json.str "ok"), ("stored", Json.int (d.readings.length : Int))]),
         DB.mk (db.readings ++ rows) db.events)

/-- Handler of `POST /api/sensor/log` in the write-only variant. -/
def receive_event (ctx : Ctx) (db : DB) (data : Option EventReq) : Resp × DB :=
  match data with
  | none => ((400, errObj "No JSON data"), db)
  | some d =>
    if pyFalsy d.device then ((400, errObj "Missing device name"), db)
    else
      let etype := d.event_type.getD (Json.str "info")
      let msg := d.message.getD (Json.str "")
      let attempt : Except String SensorEvent := do
        _ ← dbConnect ctx
        let dev ← asTextCol d.device
        let et ← asTextCol etype
        let m ← asTextCol msg
        let up ← asIntCol d.uptime
        pure (SensorEvent.mk dev et m up ctx.now)
      match attempt with
      | Except.error e => ((500, errObj e), db)
      | Except.ok ev =>
        ((200, Json.obj [("status", Json.str "ok")]), DB.mk db.readings (db.events ++ [ev]))

end SensorApiB

/-!  Spec-side vocabulary used to state the claims, kept separate from the
handler translations above. -/

/-- A `co2` entry value the integer column accepts. -/
def intColOk : Json → Bool
  | Json.null => true
  | Json.int _ => true
  | _ => false

/-- A `temp`/`humidity` entry value the double-precision column accepts. -/
def floatColOk : Json → Bool
  | Json.null => true
  | Json.int _ => true
  | Json.float _ => true
  | _ => false

/-- A batch entry whose three metric values are column-compatible (its
`ts` is unrestricted). -/
def rawOk (r : RawReading) : Bool :=
  intColOk r.co2 && floatColOk r.temp && floatColOk r.humidity

/-- The integer-column value of an accepted `co2` entry. -/
def co2Val : Json → Option Int
  | Json.int n => some n
  | _ => none

/-- The double-column value of an accepted `temp`/`humidity` entry. -/
def numVal : Json → Option Rat
  | Json.int n => some (n : Rat)
  | Json.float q => some q
  | _ => none

/-- A `ts` entry the batch loop survives: falsy, or a string. -/
def tsStringy (v : Json) : Bool :=
  pyFalsy v ||
  (match v with
   | Json.str _ => true
   | _ => false)

/-- The timestamp the normalization rule assigns to a surviving `ts`
entry: a parsed truthy string keeps its parsed instant, everything else
falls back to the current time. -/
def normTs (ctx : Ctx) (v : Json) : DateTime :=
  match v with
  | Json.str s =>
    if s == "" then ctx.now
    else
      match ctx.parseIso (replaceZ s) with
      | some t => t
      | none => ctx.now
  | _ => ctx.now

/-- Predicate: `m` is the minimum of the values `xs`. -/
def minIs {α : Type} [LinearOrder α] (xs : List α) (m : α) : Prop :=
  m ∈ xs ∧ ∀ y ∈ xs, m ≤ y

/-- Predicate: `m` is the maximum of the values `xs`. -/
def maxIs {α : Type} [LinearOrder α] (xs : List α) (m : α) : Prop :=
  m ∈ xs ∧ ∀ y ∈ xs, y ≤ m

/-- The device/window filter shared by the read queries on `readings`. -/
def windowRows (db : DB) (dev : String) (cut : DateTime) : List Reading :=
  db.readings.filter (fun r => r.device == dev && decide (cut ≤ r.created_at))

/-- Rendering contract of one metric group over an integer column, as the
amended C4 states it: `avg` through truthiness, `min`/`max` passed through
raw. -/
def metricIntSpec (xs : List Int) (j : Json) : Prop :=
  ∃ aJ mJ xJ, j = Json.obj [("avg", aJ), ("min", mJ), ("max", xJ)] ∧
    (xs = [] → aJ = Json.null ∧ mJ = Json.null ∧ xJ = Json.null) ∧
    (∀ m, minIs xs m → mJ = Json.int m) ∧
    (∀ m, maxIs xs m → xJ = Json.int m) ∧
    (xs ≠ [] → aJ = (if ((xs.sum : Rat) / (xs.length : Rat)) = 0 then Json.null
                     else Json.float ((xs.sum : Rat) / (xs.length : Rat))))

/-- Rendering contract of one metric group over a double column: `avg`,
`min` and `max` all go through the `float(x) if x else None` truthiness
coercion. -/
def metricRatSpec (xs : List Rat) (j : Json) : Prop :=
  ∃ aJ mJ xJ, j = Json.obj [("avg", aJ), ("min", mJ), ("max", xJ)] ∧
    (xs = [] → aJ = Json.null ∧ mJ = Json.null ∧ xJ = Json.null) ∧
    (∀ m, minIs xs m → mJ = (if m = 0 then Json.null else Json.float m)) ∧
    (∀ m, maxIs xs m → xJ = (if m = 0 then Json.null else Json.float m)) ∧
    (xs ≠ [] → aJ = (if (xs.sum / (xs.length : Rat)) = 0 then Json.null
                     else Json.float (xs.sum / (xs.length : Rat))))

/-!  Lemmas about the batch ingestion pipeline. -/

theorem batchTimestamp_of_tsStringy (ctx : Ctx) (v : Json) (h : tsStringy v = true) :
    SensorApi.batchTimestamp ctx v = Except.ok (normTs ctx v) := by
  cases v with
  | null => rfl
  | bool b =>
    have hb : b = false := by simpa [tsStringy, pyFalsy] using h
    subst hb
    simp [SensorApi.batchTimestamp, normTs, pyFalsy]
  | int n =>
    have hn : n = 0 := by simpa [tsStringy, pyFalsy] using h
    subst hn
    simp [SensorApi.batchTimestamp, normTs, pyFalsy]
  | float q =>
    have hq : q = 0 := by simpa [tsStringy, pyFalsy] using h
    subst hq
    simp [SensorApi.batchTimestamp, normTs, pyFalsy]
  | arr xs =>
    have hx : xs.isEmpty = true := by simpa [tsStringy, pyFalsy] using h
    simp [SensorApi.batchTimestamp, normTs, pyFalsy, hx]
  | obj kvs =>
    have hx : kvs.isEmpty = true := by simpa [tsStringy, pyFalsy] using h
    simp [SensorApi.batchTimestamp, normTs, pyFalsy, hx]
  | str s =>
    by_cases hs : s = ""
    · subst hs
      simp [SensorApi.batchTimestamp, normTs, pyFalsy]
    · cases hpi : ctx.parseIso (replaceZ s) <;>
        simp [SensorApi.batchTimestamp, normTs, pyFalsy, hs, hpi]

theorem batchTimestamp_of_not_tsStringy (ctx : Ctx) (v : Json) (h : tsStringy v = false) :
    SensorApi.batchTimestamp ctx v =
      Except.error "AttributeError: object has no attribute replace" := by
  unfold SensorApi.batchTimestamp
  have hf : pyFalsy v = false := by
    cases hp : pyFalsy v
    · rfl
    · simp [tsStringy, hp] at h
  rw [if_neg (by simp [hf])]
  cases v <;> simp_all [tsStringy, pyFalsy]

theorem tsList_of_all_stringy (ctx : Ctx) (l : List RawReading)
    (h : ∀ r ∈ l, tsStringy r.ts = true) :
    SensorApi.tsList ctx l = Except.ok (l.map fun r => normTs ctx r.ts) := by
  induction l with
  | nil => rfl
  | cons a rest ih =>
    have ha := h a (List.mem_cons_self a rest)
    have hrest := ih (fun r hr => h r (List.mem_cons_of_mem a hr))
    simp only [SensorApi.tsList, batchTimestamp_of_tsStringy ctx a.ts ha, hrest, List.map_cons]

theorem tsList_error_of_bad (ctx : Ctx) {l : List RawReading} {r : RawReading}
    (hr : r ∈ l) (h : tsStringy r.ts = false) :
    ∃ e, SensorApi.tsList ctx l = Except.error e := by
  induction l with
  | nil => cases hr
  | cons a rest ih =>
    rcases List.mem_cons.mp hr with h1 | hmem
    · subst h1
      refine ⟨"AttributeError: object has no attribute replace", ?_⟩
      simp only [SensorApi.tsList, batchTimestamp_of_not_tsStringy ctx _ h]
    · cases hbt : SensorApi.batchTimestamp ctx a.ts with
      | error e => exact ⟨e, by simp only [SensorApi.tsList, hbt]⟩
      | ok t =>
        obtain ⟨e, he⟩ := ih hmem
        exact ⟨e, by simp only [SensorApi.tsList, hbt, he]⟩

theorem tsList_ok_length (ctx : Ctx) {l : List RawReading} {ts : List DateTime}
    (h : SensorApi.tsList ctx l = Except.ok ts) : ts.length = l.length := by
  induction l generalizing ts with
  | nil =>
    simp only [SensorApi.tsList, Except.ok.injEq] at h
    subst h
    rfl
  | cons a rest ih =>
    rw [SensorApi.tsList] at h
    cases hbt : SensorApi.batchTimestamp ctx a.ts with
    | error e => rw [hbt] at h; exact absurd h (by simp)
    | ok t =>
      rw [hbt] at h
      cases hrest : SensorApi.tsList ctx rest with
      | error e => rw [hrest] at h; exact absurd h (by simp)
      | ok ts2 =>
        rw [hrest] at h
        simp only [Except.ok.injEq] at h
        subst h
        simp [ih hrest]

theorem asIntCol_of_ok {v : Json} (h : intColOk v = true) :
    asIntCol v = Except.ok (co2Val v) := by
  cases v <;> simp_all [intColOk, asIntCol, co2Val]

theorem asFloatCol_of_ok {v : Json} (h : floatColOk v = true) :
    asFloatCol v = Except.ok (numVal v) := by
  cases v <;> simp_all [floatColOk, asFloatCol, numVal]

theorem adaptRows_ok (dev : String) :
    ∀ {l : List (RawReading × DateTime)} {rows : List Reading},
      SensorApi.adaptRows dev l = Except.ok rows →
      rows.length = l.length ∧ (∀ row ∈ rows, row.device = dev) ∧
      rows.map (fun row => row.created_at) = l.map (fun p => p.2) := by
  intro l
  induction l with
  | nil =>
    intro rows h
    simp only [SensorApi.adaptRows, Except.ok.injEq] at h
    subst h
    exact ⟨rfl, by simp, rfl⟩
  | cons p rest ih =>
    intro rows h
    obtain ⟨r, t⟩ := p
    rw [SensorApi.adaptRows] at h
    cases h1 : asIntCol r.co2 with
    | error e => rw [h1] at h; exact absurd h (by simp)
    | ok c =>
      cases h2 : asFloatCol r.temp with
      | error e => rw [h1, h2] at h; exact absurd h (by simp)
      | ok tp =>
        cases h3 : asFloatCol r.humidity with
        | error e => rw [h1, h2, h3] at h; exact absurd h (by simp)
        | ok hm =>
          rw [h1, h2, h3] at h
          cases h4 : SensorApi.adaptRows dev rest with
          | error e => rw [h4] at h; exact absurd h (by simp)
          | ok rows2 =>
            rw [h4] at h
            simp only [Except.ok.injEq] at h
            subst h
            obtain ⟨hlen, hdev, hts⟩ := ih h4
            refine ⟨by simp [hlen], ?_, by simp [hts]⟩
            intro row hrow
            rcases List.mem_cons.mp hrow with h5 | h5
            · subst h5; rfl
            · exact hdev row h5

theorem adaptRows_of_all_ok (dev : String) {l : List (RawReading × DateTime)}
    (h : ∀ p ∈ l, rawOk p.1 = true) :
    SensorApi.adaptRows dev l = Except.ok (l.map (fun p =>
      Reading.mk dev (co2Val p.1.co2) (numVal p.1.temp) (numVal p.1.humidity) p.2)) := by
  induction l with
  | nil => rfl
  | cons p rest ih =>
    have hp := h p (List.mem_cons_self p rest)
    have hrest := ih (fun q hq => h q (List.mem_cons_of_mem p hq))
    obtain ⟨r, t⟩ := p
    obtain ⟨⟨h1, h2⟩, h3⟩ :
        (intColOk r.co2 = true ∧ floatColOk r.temp = true) ∧
          floatColOk r.humidity = true := by
      simpa [rawOk] using hp
    rw [SensorApi.adaptRows, asIntCol_of_ok h1, asFloatCol_of_ok h2, asFloatCol_of_ok h3,
      hrest]
    simp

theorem dbConnect_none {ctx : Ctx} (h : ctx.dbFail = none) : dbConnect ctx = Except.ok () := by
  simp [dbConnect, h]

theorem receive_batch_some (ctx : Ctx) (db : DB) (d : BatchReq) :
    SensorApi.receive_batch ctx db (some d) =
      (if pyFalsy d.device then ((400, errObj "Missing device name"), db)
       else if d.readings.isEmpty then ((400, errObj "No readings provided"), db)
       else
         match SensorApi.batchAttempt ctx d with
         | Except.error e => ((500, errObj e), db)
         | Except.ok rows =>
           ((200, Json.obj [("status", Json.str "ok"),
                            ("stored", Json.int (d.readings.length : Int))]),
            DB.mk (db.readings ++ rows) db.events)) := rfl

theorem batchAttempt_ok (ctx : Ctx) (d : BatchReq) {rows : List Reading}
    (h : SensorApi.batchAttempt ctx d = Except.ok rows) :
    ∃ s, asTextCol d.device = Except.ok s ∧ rows.length = d.readings.length ∧
      ∀ row ∈ rows, row.device = s := by
  unfold SensorApi.batchAttempt at h
  cases hdb : dbConnect ctx with
  | error e => rw [hdb] at h; exact absurd h (by simp)
  | ok u =>
    rw [hdb] at h
    cases hts : SensorApi.tsList ctx d.readings with
    | error e => rw [hts] at h; exact absurd h (by simp)
    | ok stamps =>
      rw [hts] at h
      cases hdev : asTextCol d.device with
      | error e => rw [hdev] at h; exact absurd h (by simp)
      | ok dev =>
        rw [hdev] at h
        obtain ⟨hlen, hdevall, _⟩ := adaptRows_ok dev h
        refine ⟨dev, rfl, ?_, hdevall⟩
        rw [hlen, List.length_zip, tsList_ok_length ctx hts]
        exact Nat.min_self _

/-!  Concrete fixtures used by witnesses and counterexamples. -/

/-- A healthy context: the clock reads 100000, the ISO parser recognizes
exactly one instant, rendering is a fixed string, the storage is up. -/
def ctx0 : Ctx :=
  Ctx.mk 100000
    (fun s => if s = "2026-01-16T12:00:00+00:00" then some 1768564800 else none)
    (fun _ => "1970-01-02T03:46:40+00:00")
    none

/-- The empty storage state. -/
def db0 : DB := DB.mk [] []

/-- A well-formed two-entry batch: one entry with a parseable `Z`-suffixed
timestamp, one without a timestamp. -/
def reqC1 : BatchReq :=
  BatchReq.mk (Json.str "office")
    [RawReading.mk (Json.int 700) Json.null Json.null (Json.str "2026-01-16T12:00:00Z"),
     RawReading.mk (Json.int 710) Json.null Json.null Json.null]

/-- A batch whose single entry carries `ts` as a (truthy) JSON number. -/
def reqC1bad : BatchReq :=
  BatchReq.mk (Json.str "office")
    [RawReading.mk Json.null Json.null Json.null (Json.int 1737000000)]

/-- C1, counterexample: with healthy storage and otherwise well-typed
fields, a batch whose only entry carries a numeric `ts` is answered 500 and
nothing is stored — its timestamp handling (the uncaught `AttributeError`
of `ts.replace`) rejects the whole request, contradicting the claim that
timestamp handling never causes rejection. -/
theorem C1_counterexample :
    ctx0.dbFail = none ∧
    (SensorApi.receive_batch ctx0 db0 (some reqC1bad)).1.1 = 500 ∧
    (SensorApi.receive_batch ctx0 db0 (some reqC1bad)).2 = db0 :=
  ⟨rfl, rfl, rfl⟩

/-- C1 (amended): in a batch with a truthy string device, a non-empty
readings array, healthy storage and column-compatible metric values, every
entry whose `ts` is absent, falsy or a string follows the normalization
rule (parse the `Z`-normalized string, fall back to now on parse failure
or absence) and the batch is stored; but an entry whose `ts` is truthy and
not a string makes the whole request fail with a 500 and leaves the
storage unchanged. -/
theorem C1_timestamp_rule (ctx : Ctx) (db : DB) (d : BatchReq)
    (hdev : ∃ s, d.device = Json.str s ∧ s ≠ "")
    (hdb : ctx.dbFail = none)
    (hvals : ∀ r ∈ d.readings, rawOk r = true) :
    ((∀ r ∈ d.readings, tsStringy r.ts = true) → d.readings.isEmpty = false →
      (SensorApi.receive_batch ctx db (some d)).1.1 = 200 ∧
      ∃ rows, (SensorApi.receive_batch ctx db (some d)).2.readings = db.readings ++ rows ∧
        rows.map (fun row => row.created_at) = d.readings.map (fun r => normTs ctx r.ts)) ∧
    (∀ r ∈ d.readings, tsStringy r.ts = false →
      (SensorApi.receive_batch ctx db (some d)).1.1 = 500 ∧
      (SensorApi.receive_batch ctx db (some d)).2 = db) := by
  obtain ⟨s, hds, hs⟩ := hdev
  have hfal : pyFalsy d.device = false := by
    rw [hds]; simpa [pyFalsy] using hs
  constructor
  · intro hstr hne
    have hts := tsList_of_all_stringy ctx d.readings hstr
    have hzip : ∀ p ∈ d.readings.zip (d.readings.map fun r => normTs ctx r.ts),
        rawOk p.1 = true := by
      intro p hp
      exact hvals p.1 (List.of_mem_zip hp).1
    have hadapt := adaptRows_of_all_ok s hzip
    have hattempt : SensorApi.batchAttempt ctx d =
        Except.ok ((d.readings.zip (d.readings.map fun r => normTs ctx r.ts)).map (fun p =>
          Reading.mk s (co2Val p.1.co2) (numVal p.1.temp) (numVal p.1.humidity) p.2)) := by
      unfold SensorApi.batchAttempt
      rw [dbConnect_none hdb, hts, hds]
      exact hadapt
    have hsnd : (d.readings.zip (d.readings.map fun r => normTs ctx r.ts)).map
        (fun p => p.2) = d.readings.map fun r => normTs ctx r.ts := by
      apply List.map_snd_zip
      simp
    rw [receive_batch_some, hfal, hne, hattempt]
    refine ⟨rfl, _, rfl, ?_⟩
    rw [List.map_map]
    exact hsnd
  · intro r hr hbad
    obtain ⟨e, he⟩ := tsList_error_of_bad ctx hr hbad
    have hne : d.readings.isEmpty = false := by
      cases hrs : d.readings with
      | nil => rw [hrs] at hr; cases hr
      | cons a rest => rfl
    have hattempt : SensorApi.batchAttempt ctx d = Except.error e := by
      unfold SensorApi.batchAttempt
      rw [dbConnect_none hdb, he]
    rw [receive_batch_some, hfal, hne, hattempt]
    exact ⟨rfl, rfl⟩

/-- C1, witness: the amended rule evaluated on a concrete two-entry batch
(one parseable `Z`-timestamp, one absent timestamp). -/
theorem C1_timestamp_rule_witness :
    (SensorApi.receive_batch ctx0 db0 (some reqC1)).1.1 = 200 ∧
    ∃ rows, (SensorApi.receive_batch ctx0 db0 (some reqC1)).2.readings = db0.readings ++ rows ∧
      rows.map (fun row => row.created_at) =
        reqC1.readings.map (fun r => normTs ctx0 r.ts) :=
  (C1_timestamp_rule ctx0 db0 reqC1 ⟨"office", rfl, by decide⟩ rfl (by decide)).1
    (by decide) rfl

/-- C2: batch ingestion never touches the events table, and its outcome is
all-or-nothing — either the response is 200 and exactly one row per entry,
all carrying the device of the request, is appended to `readings` (with the
`{"status":"ok","stored":n}` body), or the response is not 200 and the
storage is exactly unchanged. -/
theorem C2_batch_all_or_nothing (ctx : Ctx) (db : DB) (data : Option BatchReq) :
    (SensorApi.receive_batch ctx db data).2.events = db.events ∧
    (((SensorApi.receive_batch ctx db data).1.1 = 200 ∧
      ∃ d rows s, data = some d ∧ asTextCol d.device = Except.ok s ∧
        (SensorApi.receive_batch ctx db data).2.readings = db.readings ++ rows ∧
        rows.length = d.readings.length ∧ (∀ row ∈ rows, row.device = s) ∧
        (SensorApi.receive_batch ctx db data).1.2 =
          Json.obj [("status", Json.str "ok"),
                    ("stored", Json.int (d.readings.length : Int))]) ∨
      ((SensorApi.receive_batch ctx db data).1.1 ≠ 200 ∧
        (SensorApi.receive_batch ctx db data).2 = db)) := by
  cases data with
  | none => exact ⟨rfl, Or.inr ⟨(by decide : (400 : Nat) ≠ 200), rfl⟩⟩
  | some d =>
    rw [receive_batch_some]
    cases h1 : pyFalsy d.device with
    | true => exact ⟨rfl, Or.inr ⟨(by decide : (400 : Nat) ≠ 200), rfl⟩⟩
    | false =>
      cases h2 : d.readings.isEmpty with
      | true => exact ⟨rfl, Or.inr ⟨(by decide : (400 : Nat) ≠ 200), rfl⟩⟩
      | false =>
        cases h3 : SensorApi.batchAttempt ctx d with
        | error e => exact ⟨rfl, Or.inr ⟨(by decide : (500 : Nat) ≠ 200), rfl⟩⟩
        | ok rows =>
          obtain ⟨s, hdev, hlen, hall⟩ := batchAttempt_ok ctx d h3
          exact ⟨rfl, Or.inl ⟨rfl, d, rows, s, rfl, hdev, rfl, hlen, hall, rfl⟩⟩

/-- C3: whenever a batch POST succeeds (status 200), the body is
`{"status":"ok","stored": len(readings)}` and exactly `len(readings)` rows
were appended to the readings table. -/
theorem C3_batch_stored_count (ctx : Ctx) (db : DB) (d : BatchReq)
    (h200 : (SensorApi.receive_batch ctx db (some d)).1.1 = 200) :
    (SensorApi.receive_batch ctx db (some d)).1.2 =
      Json.obj [("status", Json.str "ok"), ("stored", Json.int (d.readings.length : Int))] ∧
    ((SensorApi.receive_batch ctx db (some d)).2).readings.length =
      db.readings.length + d.readings.length := by
  rw [receive_batch_some] at h200 ⊢
  cases h1 : pyFalsy d.device with
  | true =>
    rw [h1] at h200
    exact absurd h200 (by decide : (400 : Nat) ≠ 200)
  | false =>
    cases h2 : d.readings.isEmpty with
    | true =>
      rw [h1, h2] at h200
      exact absurd h200 (by decide : (400 : Nat) ≠ 200)
    | false =>
      cases h3 : SensorApi.batchAttempt ctx d with
      | error e =>
        rw [h1, h2, h3] at h200
        exact absurd h200 (by decide : (500 : Nat) ≠ 200)
      | ok rows =>
        obtain ⟨s, _, hlen, _⟩ := batchAttempt_ok ctx d h3
        refine ⟨rfl, ?_⟩
        show (db.readings ++ rows).length = db.readings.length + d.readings.length
        rw [List.length_append, hlen]

/-- An event store with two calibration-matching events for `office`, one
non-matching event, and a matching event of another device. -/
def dbC8 : DB :=
  DB.mk []
    [SensorEvent.mk "office" "info" "Sensor calibrated" none 50000,
     SensorEvent.mk "office" "info" "CALIBRATION done" (some 12) 60000,
     SensorEvent.mk "office" "info" "boot" none 70000,
     SensorEvent.mk "other" "info" "calibrated" none 99999]

/-- A single-reading body without a device. -/
def reqNoDevS : SingleReq := SingleReq.mk Json.null Json.null Json.null Json.null

/-- A batch body whose device is the empty string. -/
def reqNoDevB : BatchReq :=
  BatchReq.mk (Json.str "") [RawReading.mk Json.null Json.null Json.null Json.null]

/-- An event body without a device. -/
def reqNoDevE : EventReq := EventReq.mk Json.null none none Json.null

/-- Readings/stats query parameters without a device. -/
def pNoDevR : ReadingsParams := ReadingsParams.mk none none

/-- Events query parameters with an empty device. -/
def pNoDevE : EventsParams := EventsParams.mk (some "") none none none

/-- C5: on every device-taking endpoint of both variants, a missing or
empty (falsy) device yields exactly the 400 response with an `error`
field, before any storage access — never a 500, with the storage state
unchanged. -/
theorem C5_missing_device (ctx : Ctx) (db : DB) :
    (∀ d : SingleReq, pyFalsy d.device = true →
      SensorApi.receive_single ctx db (some d) = ((400, errObj "Missing device name"), db)) ∧
    (∀ d : BatchReq, pyFalsy d.device = true →
      SensorApi.receive_batch ctx db (some d) = ((400, errObj "Missing device name"), db)) ∧
    (∀ d : EventReq, pyFalsy d.device = true →
      SensorApi.receive_event ctx db (some d) = ((400, errObj "Missing device name"), db)) ∧
    (∀ p : ReadingsParams, argFalsy p.device = true →
      SensorApi.get_readings ctx db p = Except.ok (400, errObj "Missing device parameter")) ∧
    (∀ p : EventsParams, argFalsy p.device = true →
      SensorApi.get_events ctx db p = Except.ok (400, errObj "Missing device parameter")) ∧
    (∀ dv : Option String, argFalsy dv = true →
      SensorApi.get_last_calibration ctx db dv =
        Except.ok (400, errObj "Missing device parameter")) ∧
    (∀ p : ReadingsParams, argFalsy p.device = true →
      SensorApi.get_stats ctx db p = Except.ok (400, errObj "Missing device parameter")) ∧
    (∀ d : SingleReq, pyFalsy d.device = true →
      SensorApiB.receive_single ctx db (some d) = ((400, errObj "Missing device name"), db)) ∧
    (∀ d : BatchReq, pyFalsy d.device = true →
      SensorApiB.receive_batch ctx db (some d) = ((400, errObj "Missing device name"), db)) ∧
    (∀ d : EventReq, pyFalsy d.device = true →
      SensorApiB.receive_event ctx db (some d) = ((400, errObj "Missing device name"), db)) := by
  refine ⟨?_, ?_, ?_, ?_, ?_, ?_, ?_, ?_, ?_, ?_⟩ <;> intro x h <;>
    simp [SensorApi.receive_single, SensorApi.receive_batch, SensorApi.receive_event,
      SensorApi.get_readings, SensorApi.get_events, SensorApi.get_last_calibration,
      SensorApi.get_stats, SensorApiB.receive_single, SensorApiB.receive_batch,
      SensorApiB.receive_event, h]

/-- C5, witness: the 400 responses evaluated on concrete device-less
requests against every device-taking handler. -/
theorem C5_missing_device_witness :
    SensorApi.receive_single ctx0 db0 (some reqNoDevS) =
      ((400, errObj "Missing device name"), db0) ∧
    SensorApi.receive_batch ctx0 db0 (some reqNoDevB) =
      ((400, errObj "Missing device name"), db0) ∧
    SensorApi.receive_event ctx0 db0 (some reqNoDevE) =
      ((400, errObj "Missing device name"), db0) ∧
    SensorApi.get_readings ctx0 db0 pNoDevR =
      Except.ok (400, errObj "Missing device parameter") ∧
    SensorApi.get_events ctx0 db0 pNoDevE =
      Except.ok (400, errObj "Missing device parameter") ∧
    SensorApi.get_last_calibration ctx0 db0 none =
      Except.ok (400, errObj "Missing device parameter") ∧
    SensorApi.get_stats ctx0 db0 pNoDevR =
      Except.ok (400, errObj "Missing device parameter") ∧
    SensorApiB.receive_single ctx0 db0 (some reqNoDevS) =
      ((400, errObj "Missing device name"), db0) ∧
    SensorApiB.receive_batch ctx0 db0 (some reqNoDevB) =
      ((400, errObj "Missing device name"), db0) ∧
    SensorApiB.receive_event ctx0 db0 (some reqNoDevE) =
      ((400, errObj "Missing device name"), db0) :=
  ⟨(C5_missing_device ctx0 db0).1 reqNoDevS rfl,
   (C5_missing_device ctx0 db0).2.1 reqNoDevB rfl,
   (C5_missing_device ctx0 db0).2.2.1 reqNoDevE rfl,
   (C5_missing_device ctx0 db0).2.2.2.1 pNoDevR rfl,
   (C5_missing_device ctx0 db0).2.2.2.2.1 pNoDevE rfl,
   (C5_missing_device ctx0 db0).2.2.2.2.2.1 none rfl,
   (C5_missing_device ctx0 db0).2.2.2.2.2.2.1 pNoDevR rfl,
   (C5_missing_device ctx0 db0).2.2.2.2.2.2.2.1 reqNoDevS rfl,
   (C5_missing_device ctx0 db0).2.2.2.2.2.2.2.2.1 reqNoDevB rfl,
   (C5_missing_device ctx0 db0).2.2.2.2.2.2.2.2.2 reqNoDevE rfl⟩

theorem tsListB_eq (ctx : Ctx) (l : List RawReading) :
    SensorApiB.tsList ctx l = SensorApi.tsList ctx l := by
  induction l with
  | nil => rfl
  | cons a rest ih =>
    simp only [SensorApi.tsList, SensorApiB.tsList, ih]
    rfl

theorem adaptRowsB_eq (dev : String) (l : List (RawReading × DateTime)) :
    SensorApiB.adaptRows dev l = SensorApi.adaptRows dev l := by
  induction l with
  | nil => rfl
  | cons p rest ih =>
    obtain ⟨r, t⟩ := p
    simp only [SensorApi.adaptRows, SensorApiB.adaptRows, ih]

theorem batchAttemptB_eq (ctx : Ctx) (d : BatchReq) :
    SensorApiB.batchAttempt ctx d = SensorApi.batchAttempt ctx d := by
  simp only [SensorApi.batchAttempt, SensorApiB.batchAttempt, tsListB_eq, adaptRowsB_eq]

theorem receive_batchB_eq (ctx : Ctx) (db : DB) (data : Option BatchReq) :
    SensorApiB.receive_batch ctx db data = SensorApi.receive_batch ctx db data := by
  cases data with
  | none => rfl
  | some d =>
    simp only [SensorApi.receive_batch, SensorApiB.receive_batch, batchAttemptB_eq]

/-- C9: the four handlers both files define — health check, single-reading
ingest, batch ingest and event ingest — agree on every context, storage
state and request: same response, same storage effect. -/
theorem C9_variants_agree (ctx : Ctx) (db : DB) :
    SensorApiB.health ctx = SensorApi.health ctx ∧
    (∀ data, SensorApiB.receive_single ctx db data = SensorApi.receive_single ctx db data) ∧
    (∀ data, SensorApiB.receive_batch ctx db data = SensorApi.receive_batch ctx db data) ∧
    (∀ data, SensorApiB.receive_event ctx db data = SensorApi.receive_event ctx db data) :=
  ⟨rfl, fun _ => rfl, fun data => receive_batchB_eq ctx db data, fun _ => rfl⟩

/-- C10: on each GET endpoint that converts a query parameter with
`int(...)`, a valid device together with a non-decimal `hours` (or, for
the events query, `limit`) raises before the guarded section, so the
result is an uncaught exception — neither the 400 JSON nor the 500 JSON of
the error contract. -/
theorem C10_uncaught_int_conversion :
    SensorApi.get_readings ctx0 db0 (ReadingsParams.mk (some "office") (some "abc")) =
      Except.error "invalid literal for int with base 10: abc" ∧
    SensorApi.get_events ctx0 db0 (EventsParams.mk (some "office") none (some "5x") none) =
      Except.error "invalid literal for int with base 10: 5x" ∧
    SensorApi.get_stats ctx0 db0 (ReadingsParams.mk (some "office") (some "1.5")) =
      Except.error "invalid literal for int with base 10: 1.5" ∧
    ∀ r : Resp,
      SensorApi.get_readings ctx0 db0 (ReadingsParams.mk (some "office") (some "abc")) ≠
        Except.ok r :=
  ⟨rfl, rfl, rfl, fun _ h => Except.noConfusion h⟩

theorem sortDesc_head_max {l rest : List SensorEvent} {e : SensorEvent}
    (h : List.insertionSort evDesc l = e :: rest) :
    e ∈ l ∧ ∀ f ∈ l, f.created_at ≤ e.created_at := by
  have hperm := List.perm_insertionSort evDesc l
  rw [h] at hperm
  have hsorted := List.sorted_insertionSort evDesc l
  rw [h] at hsorted
  constructor
  · exact hperm.mem_iff.mp (List.mem_cons_self e rest)
  · intro f hf
    have hf2 : f ∈ e :: rest := hperm.mem_iff.mpr hf
    rcases List.mem_cons.mp hf2 with h1 | h1
    · rw [h1]
    · exact (List.sorted_cons.mp hsorted).1 f h1

/-- C8: the calibration lookup answers `{"date": iso(t)}` where `t` is the
`created_at` of a newest event of the device whose message contains
`calibrat` case-insensitively, and `{"date": None}` when no event
matches. -/
theorem C8_calibration_rule (ctx : Ctx) (db : DB) (s : String) (hs : s ≠ "")
    (hdb : ctx.dbFail = none) :
    ((db.events.filter (fun e => e.device == s && calibMatches e)) = [] →
      SensorApi.get_last_calibration ctx db (some s) =
        Except.ok (200, Json.obj [("date", Json.null)])) ∧
    ((db.events.filter (fun e => e.device == s && calibMatches e)) ≠ [] →
      ∃ e, e ∈ db.events.filter (fun e => e.device == s && calibMatches e) ∧
        (∀ f ∈ db.events.filter (fun e => e.device == s && calibMatches e),
          f.created_at ≤ e.created_at) ∧
        SensorApi.get_last_calibration ctx db (some s) =
          Except.ok (200, Json.obj [("date", Json.str (ctx.iso e.created_at))])) := by
  have hfal : argFalsy (some s) = false := by simpa [argFalsy] using hs
  have hmain : SensorApi.get_last_calibration ctx db (some s) =
      (match List.insertionSort evDesc
          (db.events.filter (fun e => e.device == s && calibMatches e)) with
       | [] => Except.ok (200, Json.obj [("date", Json.null)])
       | e :: _ => Except.ok (200, Json.obj [("date", Json.str (ctx.iso e.created_at))])) := by
    unfold SensorApi.get_last_calibration
    rw [hfal, dbConnect_none hdb]
    rfl
  constructor
  · intro hnil
    rw [hmain, hnil]
    rfl
  · intro hne
    cases hsort : List.insertionSort evDesc
        (db.events.filter (fun e => e.device == s && calibMatches e)) with
    | nil =>
      have hperm := List.perm_insertionSort evDesc
        (db.events.filter (fun e => e.device == s && calibMatches e))
      rw [hsort] at hperm
      exact absurd hperm.symm.eq_nil hne
    | cons e rest =>
      obtain ⟨hmem, hmax⟩ := sortDesc_head_max hsort
      refine ⟨e, hmem, hmax, ?_⟩
      rw [hmain, hsort]

/-- C8, witness: the calibration lookup over a concrete store holding two
matching events and two non-matching ones. -/
theorem C8_calibration_rule_witness :
    ∃ e, e ∈ dbC8.events.filter (fun e => e.device == "office" && calibMatches e) ∧
      (∀ f ∈ dbC8.events.filter (fun e => e.device == "office" && calibMatches e),
        f.created_at ≤ e.created_at) ∧
      SensorApi.get_last_calibration ctx0 dbC8 (some "office") =
        Except.ok (200, Json.obj [("date", Json.str (ctx0.iso e.created_at))]) :=
  (C8_calibration_rule ctx0 dbC8 "office" (by decide) rfl).2 (by decide)

/-- A store holding one `warning` event for `office` inside the default
window. -/
def dbC7 : DB :=
  DB.mk [] [SensorEvent.mk "office" "warning" "m" none 99000]

/-- C7, counterexample: with the `type` parameter given as the empty
string, the handler takes the unfiltered branch and returns an event whose
`event_type` differs from the given filter, contradicting the claim that a
given `type` is matched exactly by every returned row. -/
theorem C7_counterexample :
    SensorApi.get_events ctx0 dbC7 (EventsParams.mk (some "office") none none (some "")) =
      Except.ok (200, Json.arr
        [SensorApi.eventJson ctx0 (SensorEvent.mk "office" "warning" "m" none 99000)]) ∧
    (SensorEvent.mk "office" "warning" "m" none 99000).event_type ≠ "" :=
  ⟨rfl, by decide⟩

theorem selectEvents_nonneg (db : DB) (dev : String) (cut : DateTime) (tf : Option String)
    (lim : Int) (h : ¬ lim < 0) :
    SensorApi.selectEvents db dev cut tf lim =
      Except.ok ((List.insertionSort evDesc
        (match tf with
         | some t =>
           (db.events.filter (fun e => e.device == dev && decide (cut ≤ e.created_at))).filter
             (fun e => e.event_type == t)
         | none =>
           db.events.filter (fun e => e.device == dev && decide (cut ≤ e.created_at)))).take
        lim.toNat) := by
  unfold SensorApi.selectEvents
  rw [if_neg h]

/-- C7 (amended): the events query returns at most `limit` rows (PostgreSQL
rejects a negative limit with a 500), newest first by `created_at`, all
belonging to the device inside the lookback window; and when the `type`
parameter is given with a non-empty (truthy) value, every returned row has
`event_type` equal to it exactly — an empty `type` disables the filter. -/
theorem C7_events_rule (ctx : Ctx) (db : DB) (s : String) (hrs lstr tstr : Option String)
    (H L : Int) (hs : s ≠ "") (hdb : ctx.dbFail = none)
    (hH : getIntArg hrs 24 = Except.ok H) (hL : getIntArg lstr 50 = Except.ok L) :
    (L < 0 →
      SensorApi.get_events ctx db (EventsParams.mk (some s) hrs lstr tstr) =
        Except.ok (500, errObj "LIMIT must not be negative")) ∧
    (0 ≤ L → ∃ evs,
      SensorApi.get_events ctx db (EventsParams.mk (some s) hrs lstr tstr) =
        Except.ok (200, Json.arr (evs.map (SensorApi.eventJson ctx))) ∧
      evs.length ≤ L.toNat ∧
      List.Pairwise (fun a b => b.created_at ≤ a.created_at) evs ∧
      (∀ t, SensorApi.truthyArg tstr = some t → ∀ e ∈ evs, e.event_type = t) ∧
      (∀ e ∈ evs, e.device = s ∧ cutoffAt ctx H ≤ e.created_at)) := by
  have hfal : argFalsy (some s) = false := by simpa [argFalsy] using hs
  have hmain : SensorApi.get_events ctx db (EventsParams.mk (some s) hrs lstr tstr) =
      (match SensorApi.selectEvents db s (cutoffAt ctx H) (SensorApi.truthyArg tstr) L with
       | Except.error e => Except.ok (500, errObj e)
       | Except.ok evs => Except.ok (200, Json.arr (evs.map (SensorApi.eventJson ctx)))) := by
    unfold SensorApi.get_events
    simp only [hfal, Bool.false_eq_true, if_false, hH, hL, dbConnect_none hdb,
      Option.getD_some]
  constructor
  · intro hneg
    rw [hmain]
    unfold SensorApi.selectEvents
    rw [if_pos hneg]
  · intro hpos
    have hnlt : ¬ L < 0 := not_lt.mpr hpos
    rw [hmain, selectEvents_nonneg db s (cutoffAt ctx H) (SensorApi.truthyArg tstr) L hnlt]
    refine ⟨_, rfl, List.length_take_le _ _, ?_, ?_, ?_⟩
    · exact (List.sorted_insertionSort evDesc _).sublist (List.take_sublist _ _)
    · intro t ht e he
      have hmem := (List.perm_insertionSort evDesc _).mem_iff.mp (List.mem_of_mem_take he)
      rw [ht] at hmem
      exact eq_of_beq (List.mem_filter.mp hmem).2
    · intro e he
      have hmem := (List.perm_insertionSort evDesc _).mem_iff.mp (List.mem_of_mem_take he)
      have hw : e ∈ db.events.filter
          (fun e => e.device == s && decide (cutoffAt ctx H ≤ e.created_at)) := by
        cases htf : SensorApi.truthyArg tstr with
        | none => rw [htf] at hmem; exact hmem
        | some t => rw [htf] at hmem; exact (List.mem_filter.mp hmem).1
      obtain ⟨-, hcond⟩ := List.mem_filter.mp hw
      rw [Bool.and_eq_true] at hcond
      exact ⟨eq_of_beq hcond.1, of_decide_eq_true hcond.2⟩

/-- C7, witness: the amended events rule evaluated over a concrete store
with `type=info` and `limit=1`. -/
theorem C7_events_rule_witness :
    ∃ evs,
      SensorApi.get_events ctx0 dbC8
          (EventsParams.mk (some "office") none (some "1") (some "info")) =
        Except.ok (200, Json.arr (evs.map (SensorApi.eventJson ctx0))) ∧
      evs.length ≤ (1 : Int).toNat ∧
      List.Pairwise (fun a b => b.created_at ≤ a.created_at) evs ∧
      (∀ t, SensorApi.truthyArg (some "info") = some t → ∀ e ∈ evs, e.event_type = t) ∧
      (∀ e ∈ evs, e.device = "office" ∧ cutoffAt ctx0 24 ≤ e.created_at) :=
  (C7_events_rule ctx0 dbC8 "office" none (some "1") (some "info") 24 1
    (by decide) rfl rfl rfl).2 (by decide)

/-- A store holding one reading with an integer co2 for `office` inside
the default window. -/
def dbC6 : DB :=
  DB.mk [Reading.mk "office" (some 800) none none 99000] []

/-- C6, counterexample: a stored integer `co2` is rendered as the integer
`800`, which is neither a float nor null, contradicting the claim that the
numeric fields of a returned reading are coerced to float or null. -/
theorem C6_counterexample :
    SensorApi.get_readings ctx0 dbC6 (ReadingsParams.mk (some "office") none) =
      Except.ok (200, Json.arr [Json.obj [("co2", Json.int 800), ("temp", Json.null),
        ("humidity", Json.null), ("ts", Json.str (ctx0.iso 99000))]]) ∧
    (∀ q : Rat, Json.int 800 ≠ Json.float q) ∧ Json.int 800 ≠ Json.null :=
  ⟨rfl, fun _ h => Json.noConfusion h, fun h => Json.noConfusion h⟩

/-- C6 (amended): a successful readings query returns exactly the rows of
the device with `created_at` inside the lookback window (as a permutation
of the window filter), ordered non-decreasing by timestamp, each rendered
as an object with exactly the fields co2/temp/humidity/ts where `temp` and
`humidity` are float-or-null, `co2` is integer-or-null (passed through
uncoerced), and `ts` is the ISO rendering of the row timestamp. -/
theorem C6_readings_rule (ctx : Ctx) (db : DB) (s : String) (hrs : Option String) (H : Int)
    (hs : s ≠ "") (hdb : ctx.dbFail = none) (hH : getIntArg hrs 24 = Except.ok H) :
    ∃ rows,
      SensorApi.get_readings ctx db (ReadingsParams.mk (some s) hrs) =
        Except.ok (200, Json.arr (rows.map (SensorApi.readingJson ctx))) ∧
      List.Perm rows (windowRows db s (cutoffAt ctx H)) ∧
      List.Pairwise (fun a b => a.created_at ≤ b.created_at) rows ∧
      (∀ r ∈ rows, r.device = s ∧ cutoffAt ctx H ≤ r.created_at) ∧
      (∀ r ∈ rows, ∃ cv tv hv,
        SensorApi.readingJson ctx r =
          Json.obj [("co2", cv), ("temp", tv), ("humidity", hv),
                    ("ts", Json.str (ctx.iso r.created_at))] ∧
        (cv = Json.null ∨ ∃ n : Int, cv = Json.int n) ∧
        (tv = Json.null ∨ ∃ q : Rat, tv = Json.float q) ∧
        (hv = Json.null ∨ ∃ q : Rat, hv = Json.float q)) := by
  have hfal : argFalsy (some s) = false := by simpa [argFalsy] using hs
  have hmain : SensorApi.get_readings ctx db (ReadingsParams.mk (some s) hrs) =
      Except.ok (200, Json.arr ((SensorApi.selectReadings db s (cutoffAt ctx H)).map
        (SensorApi.readingJson ctx))) := by
    unfold SensorApi.get_readings
    simp only [hfal, Bool.false_eq_true, if_false, hH, dbConnect_none hdb, Option.getD_some]
  refine ⟨SensorApi.selectReadings db s (cutoffAt ctx H), hmain, ?_, ?_, ?_, ?_⟩
  · exact List.perm_insertionSort rdAsc _
  · exact List.sorted_insertionSort rdAsc _
  · intro r hr
    have hmem : r ∈ windowRows db s (cutoffAt ctx H) :=
      (List.perm_insertionSort rdAsc _).mem_iff.mp hr
    obtain ⟨-, hcond⟩ := List.mem_filter.mp hmem
    rw [Bool.and_eq_true] at hcond
    exact ⟨eq_of_beq hcond.1, of_decide_eq_true hcond.2⟩
  · intro r hr
    refine ⟨optIntJson r.co2, floatOrNull r.temp, floatOrNull r.humidity, rfl, ?_, ?_, ?_⟩
    · cases r.co2 with
      | none => exact Or.inl rfl
      | some n => exact Or.inr ⟨n, rfl⟩
    · cases r.temp with
      | none => exact Or.inl rfl
      | some q => exact Or.inr ⟨q, rfl⟩
    · cases r.humidity with
      | none => exact Or.inl rfl
      | some q => exact Or.inr ⟨q, rfl⟩

/-- C6, witness: the amended readings rule evaluated over a concrete
store. -/
theorem C6_readings_rule_witness :
    ∃ rows,
      SensorApi.get_readings ctx0 dbC6 (ReadingsParams.mk (some "office") none) =
        Except.ok (200, Json.arr (rows.map (SensorApi.readingJson ctx0))) ∧
      List.Perm rows (windowRows dbC6 "office" (cutoffAt ctx0 24)) ∧
      List.Pairwise (fun a b => a.created_at ≤ b.created_at) rows ∧
      (∀ r ∈ rows, r.device = "office" ∧ cutoffAt ctx0 24 ≤ r.created_at) ∧
      (∀ r ∈ rows, ∃ cv tv hv,
        SensorApi.readingJson ctx0 r =
          Json.obj [("co2", cv), ("temp", tv), ("humidity", hv),
                    ("ts", Json.str (ctx0.iso r.created_at))] ∧
        (cv = Json.null ∨ ∃ n : Int, cv = Json.int n) ∧
        (tv = Json.null ∨ ∃ q : Rat, tv = Json.float q) ∧
        (hv = Json.null ∨ ∃ q : Rat, hv = Json.float q)) :=
  C6_readings_rule ctx0 dbC6 "office" none 24 (by decide) rfl rfl

theorem colMin_eq_none {α : Type} [LinearOrder α] {xs : List α} (h : colMin xs = none) :
    xs = [] := by
  cases xs with
  | nil => rfl
  | cons x l =>
    rw [colMin] at h
    cases hm : colMin l <;> rw [hm] at h <;> exact Option.noConfusion h

theorem colMax_eq_none {α : Type} [LinearOrder α] {xs : List α} (h : colMax xs = none) :
    xs = [] := by
  cases xs with
  | nil => rfl
  | cons x l =>
    rw [colMax] at h
    cases hm : colMax l <;> rw [hm] at h <;> exact Option.noConfusion h

theorem colMin_spec {α : Type} [LinearOrder α] {xs : List α} {m : α}
    (h : colMin xs = some m) : minIs xs m := by
  induction xs generalizing m with
  | nil => exact absurd h (by simp [colMin])
  | cons x l ih =>
    rw [colMin] at h
    cases hm : colMin l with
    | none =>
      rw [hm] at h
      have hl : l = [] := colMin_eq_none hm
      have hx : x = m := by simpa using h
      subst hl
      subst hx
      exact ⟨List.mem_cons_self x [], by
        intro y hy
        rcases List.mem_cons.mp hy with h1 | h1
        · rw [h1]
        · cases h1⟩
    | some m0 =>
      rw [hm] at h
      have hx : min x m0 = m := by simpa using h
      obtain ⟨hmem, hle⟩ := ih hm
      subst hx
      constructor
      · rcases le_total x m0 with h1 | h1
        · rw [min_eq_left h1]; exact List.mem_cons_self x l
        · rw [min_eq_right h1]; exact List.mem_cons_of_mem x hmem
      · intro y hy
        rcases List.mem_cons.mp hy with h1 | h1
        · rw [h1]; exact min_le_left x m0
        · exact le_trans (min_le_right x m0) (hle y h1)

theorem colMax_spec {α : Type} [LinearOrder α] {xs : List α} {m : α}
    (h : colMax xs = some m) : maxIs xs m := by
  induction xs generalizing m with
  | nil => exact absurd h (by simp [colMax])
  | cons x l ih =>
    rw [colMax] at h
    cases hm : colMax l with
    | none =>
      rw [hm] at h
      have hl : l = [] := colMax_eq_none hm
      have hx : x = m := by simpa using h
      subst hl
      subst hx
      exact ⟨List.mem_cons_self x [], by
        intro y hy
        rcases List.mem_cons.mp hy with h1 | h1
        · rw [h1]
        · cases h1⟩
    | some m0 =>
      rw [hm] at h
      have hx : max x m0 = m := by simpa using h
      obtain ⟨hmem, hle⟩ := ih hm
      subst hx
      constructor
      · rcases le_total x m0 with h1 | h1
        · rw [max_eq_right h1]; exact List.mem_cons_of_mem x hmem
        · rw [max_eq_left h1]; exact List.mem_cons_self x l
      · intro y hy
        rcases List.mem_cons.mp hy with h1 | h1
        · rw [h1]; exact le_max_left x m0
        · exact le_trans (hle y h1) (le_max_right x m0)

theorem minIs_unique {α : Type} [LinearOrder α] {xs : List α} {a b : α}
    (ha : minIs xs a) (hb : minIs xs b) : a = b :=
  le_antisymm (ha.2 b hb.1) (hb.2 a ha.1)

theorem maxIs_unique {α : Type} [LinearOrder α] {xs : List α} {a b : α}
    (ha : maxIs xs a) (hb : maxIs xs b) : a = b :=
  le_antisymm (hb.2 a ha.1) (ha.2 b hb.1)

theorem metricIntSpec_of (xs : List Int) :
    metricIntSpec xs (Json.obj [("avg", floatIfTruthy (avgInt xs)),
      ("min", optIntJson (colMin xs)), ("max", optIntJson (colMax xs))]) := by
  refine ⟨_, _, _, rfl, ?_, ?_, ?_, ?_⟩
  · intro h
    subst h
    exact ⟨by simp [avgInt, floatIfTruthy], rfl, rfl⟩
  · intro m hm
    cases hcm : colMin xs with
    | none =>
      have hx : xs = [] := colMin_eq_none hcm
      rw [hx] at hm
      exact absurd hm.1 (List.not_mem_nil m)
    | some m0 =>
      have := minIs_unique hm (colMin_spec hcm)
      subst this
      rfl
  · intro m hm
    cases hcm : colMax xs with
    | none =>
      have hx : xs = [] := colMax_eq_none hcm
      rw [hx] at hm
      exact absurd hm.1 (List.not_mem_nil m)
    | some m0 =>
      have := maxIs_unique hm (colMax_spec hcm)
      subst this
      rfl
  · intro hne
    have hie : xs.isEmpty = false := by
      cases xs with
      | nil => exact absurd rfl hne
      | cons a l => rfl
    simp [avgInt, hie, floatIfTruthy, beq_iff_eq]

theorem metricRatSpec_of (xs : List Rat) :
    metricRatSpec xs (Json.obj [("avg", floatIfTruthy (avgRat xs)),
      ("min", floatIfTruthy (colMin xs)), ("max", floatIfTruthy (colMax xs))]) := by
  refine ⟨_, _, _, rfl, ?_, ?_, ?_, ?_⟩
  · intro h
    subst h
    exact ⟨by simp [avgRat, floatIfTruthy], rfl, rfl⟩
  · intro m hm
    cases hcm : colMin xs with
    | none =>
      have hx : xs = [] := colMin_eq_none hcm
      rw [hx] at hm
      exact absurd hm.1 (List.not_mem_nil m)
    | some m0 =>
      have := minIs_unique hm (colMin_spec hcm)
      subst this
      simp [floatIfTruthy, beq_iff_eq]
  · intro m hm
    cases hcm : colMax xs with
    | none =>
      have hx : xs = [] := colMax_eq_none hcm
      rw [hx] at hm
      exact absurd hm.1 (List.not_mem_nil m)
    | some m0 =>
      have := maxIs_unique hm (colMax_spec hcm)
      subst this
      simp [floatIfTruthy, beq_iff_eq]
  · intro hne
    have hie : xs.isEmpty = false := by
      cases xs with
      | nil => exact absurd rfl hne
      | cons a l => rfl
    simp [avgRat, hie, floatIfTruthy, beq_iff_eq]

/-- A store with two readings for `office` in the default window (one
humidity missing) and one reading of another device. -/
def dbC4 : DB :=
  DB.mk [Reading.mk "office" (some 800) (some 22) (some 45) 99000,
         Reading.mk "office" (some 900) (some 20) none 99500,
         Reading.mk "other" (some 5) (some 1) (some 1) 99000] []

/-- A store whose only `office` reading has `temp = 0.0`. -/
def dbC4z : DB := DB.mk [Reading.mk "office" none (some 0) none 99000] []

theorem get_stats_shape (ctx : Ctx) (db : DB) (s : String) (hrs : Option String) (H : Int)
    (hs : s ≠ "") (hdb : ctx.dbFail = none) (hH : getIntArg hrs 24 = Except.ok H) :
    SensorApi.get_stats ctx db (ReadingsParams.mk (some s) hrs) =
      (if 0 < (SensorApi.statsQuery db s (cutoffAt ctx H)).count then
        Except.ok (200, Json.obj [("count",
          Json.int ((SensorApi.statsQuery db s (cutoffAt ctx H)).count : Int)),
          ("co2", Json.obj [("avg",
            floatIfTruthy (SensorApi.statsQuery db s (cutoffAt ctx H)).avg_co2),
            ("min", optIntJson (SensorApi.statsQuery db s (cutoffAt ctx H)).min_co2),
            ("max", optIntJson (SensorApi.statsQuery db s (cutoffAt ctx H)).max_co2)]),
          ("temp", Json.obj [("avg",
            floatIfTruthy (SensorApi.statsQuery db s (cutoffAt ctx H)).avg_temp),
            ("min", floatIfTruthy (SensorApi.statsQuery db s (cutoffAt ctx H)).min_temp),
            ("max", floatIfTruthy (SensorApi.statsQuery db s (cutoffAt ctx H)).max_temp)]),
          ("humidity", Json.obj [("avg",
            floatIfTruthy (SensorApi.statsQuery db s (cutoffAt ctx H)).avg_hum),
            ("min", floatIfTruthy (SensorApi.statsQuery db s (cutoffAt ctx H)).min_hum),
            ("max", floatIfTruthy (SensorApi.statsQuery db s (cutoffAt ctx H)).max_hum)])])
      else
        Except.ok (200, Json.obj [("count", Json.int 0), ("co2", Json.null),
          ("temp", Json.null), ("humidity", Json.null)])) := by
  have hfal : argFalsy (some s) = false := by simpa [argFalsy] using hs
  unfold SensorApi.get_stats
  simp only [hfal, Bool.false_eq_true, if_false, hH, dbConnect_none hdb, Option.getD_some]

/-- C4, counterexample: with one in-window reading whose only metric is
`temp = 0.0`, the stats response renders the temp average, min and max as
null (the truthiness coercion `float(x) if x else None` swallows zero), so
with count ≥ 1 the temp min/max are not coerced to float as claimed. -/
theorem C4_counterexample :
    SensorApi.get_stats ctx0 dbC4z (ReadingsParams.mk (some "office") none) =
      Except.ok (200, Json.obj [("count", Json.int 1),
        ("co2", Json.obj [("avg", Json.null), ("min", Json.null), ("max", Json.null)]),
        ("temp", Json.obj [("avg", Json.null), ("min", Json.null), ("max", Json.null)]),
        ("humidity", Json.obj [("avg", Json.null), ("min", Json.null), ("max", Json.null)])]) ∧
    (∀ q : Rat, Json.null ≠ Json.float q) := by
  refine ⟨?_, fun _ h => Json.noConfusion h⟩
  rw [get_stats_shape ctx0 dbC4z "office" none 24 (by decide) rfl rfl,
    if_pos (by decide : 0 < (SensorApi.statsQuery dbC4z "office" (cutoffAt ctx0 24)).count)]
  have hrows : dbC4z.readings.filter
      (fun r => r.device == "office" && decide (cutoffAt ctx0 24 ≤ r.created_at)) =
      [Reading.mk "office" none (some 0) none 99000] := by decide
  simp [SensorApi.statsQuery, hrows, avgRat, avgInt, colMin, colMax, floatIfTruthy,
    optIntJson]

/-- C4 (amended): for a valid device and healthy storage, a stats query
with zero in-window rows answers `{count: 0, co2: null, temp: null,
humidity: null}`; with at least one row it answers nested {avg, min, max}
groups where co2 min/max are passed through as integers (or null on an
all-NULL column), while every average and the temp/humidity min/max go
through `float(x) if x else None` — i.e. they are floats unless the
aggregate is NULL or zero, in which case they are null. -/
theorem C4_stats_rule (ctx : Ctx) (db : DB) (s : String) (hrs : Option String) (H : Int)
    (hs : s ≠ "") (hdb : ctx.dbFail = none) (hH : getIntArg hrs 24 = Except.ok H) :
    (windowRows db s (cutoffAt ctx H) = [] →
      SensorApi.get_stats ctx db (ReadingsParams.mk (some s) hrs) =
        Except.ok (200, Json.obj [("count", Json.int 0), ("co2", Json.null),
          ("temp", Json.null), ("humidity", Json.null)])) ∧
    (windowRows db s (cutoffAt ctx H) ≠ [] → ∃ cJ tJ hJ,
      SensorApi.get_stats ctx db (ReadingsParams.mk (some s) hrs) =
        Except.ok (200, Json.obj [("count",
          Json.int ((windowRows db s (cutoffAt ctx H)).length : Int)),
          ("co2", cJ), ("temp", tJ), ("humidity", hJ)]) ∧
      metricIntSpec ((windowRows db s (cutoffAt ctx H)).filterMap (fun r => r.co2)) cJ ∧
      metricRatSpec ((windowRows db s (cutoffAt ctx H)).filterMap (fun r => r.temp)) tJ ∧
      metricRatSpec ((windowRows db s (cutoffAt ctx H)).filterMap (fun r => r.humidity)) hJ) := by
  have hmain := get_stats_shape ctx db s hrs H hs hdb hH
  constructor
  · intro h0
    rw [hmain]
    have hz : ¬ 0 < (SensorApi.statsQuery db s (cutoffAt ctx H)).count := by
      have hc : (SensorApi.statsQuery db s (cutoffAt ctx H)).count =
          (windowRows db s (cutoffAt ctx H)).length := rfl
      rw [hc, h0]
      exact lt_irrefl 0
    exact if_neg hz
  · intro hne
    have hpos : 0 < (SensorApi.statsQuery db s (cutoffAt ctx H)).count := by
      have hc : (SensorApi.statsQuery db s (cutoffAt ctx H)).count =
          (windowRows db s (cutoffAt ctx H)).length := rfl
      rw [hc]
      exact Nat.pos_of_ne_zero (fun hz => hne (List.length_eq_zero.mp hz))
    refine ⟨_, _, _, ?_, metricIntSpec_of _, metricRatSpec_of _, metricRatSpec_of _⟩
    rw [hmain]
    exact if_pos hpos

/-- C4, witness: the amended stats rule evaluated over a concrete
non-degenerate store. -/
theorem C4_stats_rule_witness :
    ∃ cJ tJ hJ,
      SensorApi.get_stats ctx0 dbC4 (ReadingsParams.mk (some "office") none) =
        Except.ok (200, Json.obj [("count",
          Json.int ((windowRows dbC4 "office" (cutoffAt ctx0 24)).length : Int)),
          ("co2", cJ), ("temp", tJ), ("humidity", hJ)]) ∧
      metricIntSpec ((windowRows dbC4 "office" (cutoffAt ctx0 24)).filterMap
        (fun r => r.co2)) cJ ∧
      metricRatSpec ((windowRows dbC4 "office" (cutoffAt ctx0 24)).filterMap
        (fun r => r.temp)) tJ ∧
      metricRatSpec ((windowRows dbC4 "office" (cutoffAt ctx0 24)).filterMap
        (fun r => r.humidity)) hJ :=
  (C4_stats_rule ctx0 dbC4 "office" none 24 (by decide) rfl rfl).2 (by decide)

/-- C3, witness: the stored count on a concrete two-entry batch. -/
theorem C3_batch_stored_count_witness :
    (SensorApi.receive_batch ctx0 db0 (some reqC1)).1.2 =
      Json.obj [("status", Json.str "ok"), ("stored", Json.int (reqC1.readings.length : Int))] ∧
    ((SensorApi.receive_batch ctx0 db0 (some reqC1)).2).readings.length =
      db0.readings.length + reqC1.readings.length :=
  C3_batch_stored_count ctx0 db0 reqC1 (by decide)
